import Mathlib

/-!
Shallow embedding of tds_fdw (src/tds_fdw.c), a PostgreSQL foreign data
wrapper speaking to a TDS server through DB-Library.

Modelling conventions:
* Every DB-Library call made by the wrapper is recorded in a trace
  (`List DbOp`); the responses of the remote library are inputs
  (`BeginRemote`, `IterateRemote`, ...), so each C function becomes a pure
  Lean function from its inputs and the remote's responses to a result
  together with the trace of calls it issued.
* `ereport(ERROR, ...)` raises a PostgreSQL error and does not return
  (it performs a longjmp to the enclosing error handler); it is modelled
  as `Except.error`.  Statements that follow an `ereport(ERROR, ...)` in
  the C source (such as `goto cleanup;` or `return -1;`) are unreachable
  and therefore absent from the embedding.
* `palloc` never returns NULL in PostgreSQL (it raises on exhaustion), so
  the `== NULL` checks after `palloc` in the C source are dead and the
  embedding treats allocation as always succeeding.
* C strings (`char *`) that may be NULL become `Option String`;
  C `int` becomes `Int` (no arithmetic close to overflow occurs in the
  modelled code paths).
-/

/-- DB-Library calls issued by the wrapper, in the order they appear in a
trace.  `pfreeQuery` records the `pfree(festate->query)` in
`tdsEndForeignScan`. -/
inductive DbOp where
  | dbinit
  | dberrhandle
  | dbmsghandle
  | dblogin
  | dbsetluser
  | dbsetlpwd
  | dbsetlcharset
  | dbsetlnatlang
  | dbopen
  | dbuse
  | dbcmd
  | dbsqlexec
  | dbresults
  | dbnextrow
  | dbwillconvert
  | dbconvert
  | dbclose
  | dbloginfree
  | dbexit
  | pfreeQuery
  deriving DecidableEq, Repr

/-- Error taxonomy of the spec, mapped from the `errcode` used at each
`ereport(ERROR, ...)` site: `ERRCODE_SYNTAX_ERROR` and
`ERRCODE_FDW_INVALID_OPTION_NAME` are configuration errors,
`ERRCODE_FDW_UNABLE_TO_ESTABLISH_CONNECTION` connection errors,
`ERRCODE_FDW_UNABLE_TO_CREATE_EXECUTION` execution errors and
`ERRCODE_FDW_OUT_OF_MEMORY` resource errors. -/
inductive TdsError where
  | configurationError (msg : String)
  | connectionError (msg : String)
  | executionError (msg : String)
  | resourceError (msg : String)
  deriving DecidableEq, Repr

/-- struct TdsFdwOptionSet (tds_fdw.c:87-98): option values after merging. -/
structure TdsFdwOptionSet where
  servername : Option String
  language : Option String
  character_set : Option String
  port : Int
  username : Option String
  password : Option String
  database : Option String
  query : Option String
  table : Option String
  deriving DecidableEq, Repr

/-- tdsOptionSetInit (tds_fdw.c:397-420): all pointers NULL, port 0. -/
def tdsOptionSetInit : TdsFdwOptionSet :=
  { servername := none, language := none, character_set := none, port := 0,
    username := none, password := none, database := none, query := none,
    table := none }

/-- Characters accepted by `isspace` in the C locale. -/
def isSpaceC (c : Char) : Bool :=
  c == ' ' || c == '\t' || c == '\n' || c == '\x0b' || c == '\x0c' || c == '\r'

/-- Leading-whitespace skipping performed by C `atoi`. -/
def dropSpacesC : List Char → List Char
  | [] => []
  | c :: cs => if isSpaceC c then dropSpacesC cs else c :: cs

/-- Digit-run accumulation of C `atoi`: consume decimal digits, stop at the
first non-digit.  48 is the code of the character 0. -/
def atoiDigits : List Char → Nat → Nat
  | [], acc => acc
  | c :: cs, acc => if c.isDigit then atoiDigits cs (acc * 10 + (c.toNat - 48)) else acc

/-- C `atoi`, as used on the `port` option (tds_fdw.c:288, 494): skip
whitespace, optional sign, then a decimal digit run; any string without a
leading digit run parses to 0. -/
def atoi (s : String) : Int :=
  match dropSpacesC s.data with
  | [] => 0
  | c :: cs =>
    if c = '-' then - (atoiDigits cs 0 : Int)
    else if c = '+' then (atoiDigits cs 0 : Int)
    else (atoiDigits (c :: cs) 0 : Int)

/-- One step of the option-merging foreach in tdsGetOptions
(tds_fdw.c:449-557): each recognized option name overwrites the
corresponding field; unrecognized names are ignored. -/
def applyOption (os : TdsFdwOptionSet) (p : String × String) : TdsFdwOptionSet :=
  if p.1 = "servername" then { os with servername := some p.2 }
  else if p.1 = "language" then { os with language := some p.2 }
  else if p.1 = "character_set" then { os with character_set := some p.2 }
  else if p.1 = "port" then { os with port := atoi p.2 }
  else if p.1 = "username" then { os with username := some p.2 }
  else if p.1 = "password" then { os with password := some p.2 }
  else if p.1 = "database" then { os with database := some p.2 }
  else if p.1 = "query" then { os with query := some p.2 }
  else if p.1 = "table" then { os with table := some p.2 }
  else os

/-- The foreach loop of tdsGetOptions over the concatenation of the
table-level, server-level and user-mapping option lists
(tds_fdw.c:444-557). -/
def tdsGetOptionsMerge (opts : List (String × String)) : TdsFdwOptionSet :=
  opts.foldl applyOption tdsOptionSetInit

/-- tdsGetOptions (tds_fdw.c:424-595): merge the three option lists in the
order table, server, user mapping; default `servername` to 127.0.0.1; fail
(ereport ERROR) when neither `table` nor `query` was supplied. -/
def tdsGetOptions (tableOpts serverOpts mappingOpts : List (String × String)) :
    Except TdsError TdsFdwOptionSet :=
  let os := tdsGetOptionsMerge (tableOpts ++ serverOpts ++ mappingOpts)
  let os := if os.servername.isSome then os else { os with servername := some "127.0.0.1" }
  if os.table = none ∧ os.query = none then
    .error (.configurationError "Either a table or a query must be specified")
  else .ok os

/-- The catalog Oids used as option contexts (ForeignServerRelationId,
ForeignTableRelationId, UserMappingRelationId). -/
inductive Catalog where
  | foreignServer
  | foreignTable
  | userMapping
  deriving DecidableEq, BEq, Repr

/-- valid_options (tds_fdw.c:71-83): option names and their contexts. -/
def valid_options : List (String × Catalog) :=
  [("servername", .foreignServer), ("language", .foreignServer),
   ("character_set", .foreignServer), ("port", .foreignServer),
   ("username", .userMapping), ("password", .userMapping),
   ("database", .foreignTable), ("query", .foreignTable),
   ("table", .foreignTable)]

/-- tdsIsValidOption (tds_fdw.c:370-393). -/
def tdsIsValidOption (option : String) (context : Catalog) : Bool :=
  valid_options.any (fun q => q.2 == context && q.1 == option)

/-- One iteration of the validator's foreach (tds_fdw.c:218-357): reject
unknown names for the context, reject a redundant occurrence of a name
already seen, reject `query` once `table` is set and vice versa.  Note the
redundancy check for `port` tests the int value (`if (option_set.port)`),
so a first `port` that parsed to 0 is not remembered. -/
def tdsValidatorStep (catalog : Catalog) (os : TdsFdwOptionSet) (p : String × String) :
    Except TdsError TdsFdwOptionSet :=
  if tdsIsValidOption p.1 catalog = false then
    .error (.configurationError ("Invalid option " ++ p.1))
  else if p.1 = "servername" then
    if os.servername.isSome then .error (.configurationError "Redundant option: servername")
    else .ok { os with servername := some p.2 }
  else if p.1 = "language" then
    if os.language.isSome then .error (.configurationError "Redundant option: language")
    else .ok { os with language := some p.2 }
  else if p.1 = "character_set" then
    if os.character_set.isSome then .error (.configurationError "Redundant option: character_set")
    else .ok { os with character_set := some p.2 }
  else if p.1 = "port" then
    if os.port = 0 then .ok { os with port := atoi p.2 }
    else .error (.configurationError "Redundant option: port")
  else if p.1 = "username" then
    if os.username.isSome then .error (.configurationError "Redundant option: username")
    else .ok { os with username := some p.2 }
  else if p.1 = "password" then
    if os.password.isSome then .error (.configurationError "Redundant option: password")
    else .ok { os with password := some p.2 }
  else if p.1 = "database" then
    if os.database.isSome then .error (.configurationError "Redundant option: database")
    else .ok { os with database := some p.2 }
  else if p.1 = "query" then
    if os.table.isSome then
      .error (.configurationError "Conflicting options: query cannot be used with table")
    else if os.query.isSome then .error (.configurationError "Redundant option: query")
    else .ok { os with query := some p.2 }
  else if p.1 = "table" then
    if os.query.isSome then
      .error (.configurationError "Conflicting options: table cannot be used with query")
    else if os.table.isSome then .error (.configurationError "Redundant option: table")
    else .ok { os with table := some p.2 }
  else .ok os

/-- The validator's foreach loop threaded through `tdsValidatorStep`. -/
def tdsValidatorFold (catalog : Catalog) (os : TdsFdwOptionSet) :
    List (String × String) → Except TdsError TdsFdwOptionSet
  | [] => .ok os
  | p :: rest =>
    match tdsValidatorStep catalog os p with
    | .error e => .error e
    | .ok os' => tdsValidatorFold catalog os' rest

/-- tds_fdw_validator (tds_fdw.c:203-366): validate one object's options
list against its catalog context, starting from a fresh option set. -/
def tds_fdw_validator (catalog : Catalog) (opts : List (String × String)) :
    Except TdsError Unit :=
  match tdsValidatorFold catalog tdsOptionSetInit opts with
  | .error e => .error e
  | .ok _ => .ok ()

/-- Host-address string built in tdsSetupConnection (tds_fdw.c:648-666):
`servername:port` when the stored port int is nonzero, the bare server
name otherwise. -/
def buildConnString (servername : String) (port : Int) : String :=
  if port ≠ 0 then servername ++ ":" ++ toString port else servername

/-- Query synthesis at the end of tdsSetupConnection (tds_fdw.c:726-767):
keep an explicit `query`; otherwise build `SELECT * FROM <table>`.
tdsGetOptions guarantees `table` is present when `query` is not (in C,
`strlen(NULL)` would be undefined otherwise), hence the default "". -/
def resolveQuery (os : TdsFdwOptionSet) : TdsFdwOptionSet :=
  match os.query with
  | some _ => os
  | none => { os with query := some ("SELECT * FROM " ++ os.table.getD "") }

/-- Responses of the DB-Library runtime to the session-establishment calls:
`initRet` models dbinit, `loginRet` dblogin returning non-NULL, `openRet`
dbopen returning non-NULL, `useRet` dbuse succeeding. -/
structure BeginRemote where
  initRet : Bool
  loginRet : Bool
  openRet : Bool
  useRet : Bool

/-- tdsSetupConnection (tds_fdw.c:599-782): set user and password on the
login record, optionally character set and language, build the host
string, dbopen, optionally dbuse, then resolve the query.  Returns the
option set with the resolved query. -/
def tdsSetupConnection (r : BeginRemote) (os : TdsFdwOptionSet) :
    Except TdsError TdsFdwOptionSet × List DbOp :=
  let tr0 := [DbOp.dbsetluser, DbOp.dbsetlpwd]
    ++ (if os.character_set.isSome then [DbOp.dbsetlcharset] else [])
    ++ (if os.language.isSome then [DbOp.dbsetlnatlang] else [])
  let conn := buildConnString (os.servername.getD "") os.port
  if r.openRet = false then
    (.error (.connectionError ("Failed to connect using connection string " ++ conn)),
      tr0 ++ [DbOp.dbopen])
  else
    match os.database with
    | some db =>
      if r.useRet = false then
        (.error (.connectionError ("Failed to select database " ++ db)),
          tr0 ++ [DbOp.dbopen, DbOp.dbuse])
      else (.ok (resolveQuery os), tr0 ++ [DbOp.dbopen, DbOp.dbuse])
    | none => (.ok (resolveQuery os), tr0 ++ [DbOp.dbopen])

/-- dbresults return codes (tds_fdw.c:840-920): FAIL, NO_MORE_RESULTS,
SUCCEED, or any other value. -/
inductive ResultsRet where
  | fail
  | noMoreResults
  | succeed
  | other
  deriving DecidableEq, Repr

/-- dbnextrow return codes (tds_fdw.c:871-902, 1241-1385): REG_ROW,
BUF_FULL, FAIL, NO_MORE_ROWS, or any other value. -/
inductive NextrowRet where
  | regRow
  | bufFull
  | fail
  | noMoreRows
  | other
  deriving DecidableEq, Repr

/-- DB-Library type codes from sybdb.h used by tdsConvertToCString. -/
def SYBCHAR : Int := 47
def SYBVARCHAR : Int := 39
def SYBTEXT : Int := 35
def SYBBINARY : Int := 45
def SYBVARBINARY : Int := 37

/-- Destination type chosen by tdsConvertToCString (tds_fdw.c:966-986):
SYBBINARY for binary/varbinary sources, SYBCHAR for everything else. -/
def desttypeFor (srctype : Int) : Int :=
  if srctype = SYBCHAR ∨ srctype = SYBVARCHAR ∨ srctype = SYBTEXT then SYBCHAR
  else if srctype = SYBBINARY ∨ srctype = SYBVARBINARY then SYBBINARY
  else SYBCHAR

/-- Destination length passed to dbconvert (tds_fdw.c:966-986): the source
length for binary types, -1 (null terminate) otherwise. -/
def destlenFor (srctype : Int) (srclen : Int) : Int :=
  if srctype = SYBCHAR ∨ srctype = SYBVARCHAR ∨ srctype = SYBTEXT then -1
  else if srctype = SYBBINARY ∨ srctype = SYBVARBINARY then srclen
  else -1

/-- The conversion facility of DB-Library: `willconvert srctype desttype`
models dbwillconvert; `convert srctype src srclen desttype destlen`
models dbconvert, with `none` covering both a FAIL return and the -1
null-pointer/bad-data-type return. -/
structure ConvertLib where
  willconvert : Int → Int → Bool
  convert : Int → List Int → Int → Int → Int → Option String

/-- One column cell: NULL, converted text, or the buffer returned by
tdsConvertToCString although dbconvert did not succeed (the C function
returns the freshly palloc-ed `dest` with unspecified contents in that
case). -/
inductive Cell where
  | null
  | text (s : String)
  | alloc
  deriving DecidableEq, Repr

/-- tdsConvertToCString (tds_fdw.c:958-1039): pick destination type and
length from the source type; if dbwillconvert denies the conversion,
return NULL without calling dbconvert; otherwise allocate and call
dbconvert, returning the buffer whether or not the conversion succeeded
(a FAIL or -1 return only produces a debug notice). -/
def tdsConvertToCString (lib : ConvertLib) (srctype : Int) (src : List Int) (srclen : Int) :
    Cell × List DbOp :=
  if lib.willconvert srctype (desttypeFor srctype) then
    match lib.convert srctype src srclen (desttypeFor srctype) (destlenFor srctype srclen) with
    | some s => (Cell.text s, [DbOp.dbwillconvert, DbOp.dbconvert])
    | none => (Cell.alloc, [DbOp.dbwillconvert, DbOp.dbconvert])
  else (Cell.null, [DbOp.dbwillconvert])

/-- One column of the current row as reported by dbcoltype, dbdatlen and
dbdata: the native type code, the data length, and the raw bytes (`none`
models a NULL pointer from dbdata). -/
structure ColumnData where
  srctype : Int
  srclen : Int
  src : Option (List Int)

/-- The per-column body of the row loop in tdsIterateForeignScan
(tds_fdw.c:1273-1337): a zero data length or a NULL data pointer yields a
NULL cell without any conversion call; otherwise the value is converted
by tdsConvertToCString. -/
def tdsGetColumnValue (lib : ConvertLib) (c : ColumnData) : Cell × List DbOp :=
  if c.srclen = 0 then (Cell.null, [])
  else
    match c.src with
    | none => (Cell.null, [])
    | some bytes => tdsConvertToCString lib c.srctype bytes c.srclen

/-- The whole column loop of one REG_ROW iteration (tds_fdw.c:1273-1337):
every column is processed, in order, regardless of the outcome of the
other columns. -/
def tdsRowCells (lib : ConvertLib) (cols : List ColumnData) : List (Cell × List DbOp) :=
  cols.map (tdsGetColumnValue lib)

/-- struct TdsFdwExecutionState (tds_fdw.c:111-120), the fields the
modelled code paths touch: the resolved query, the first-call flag and
the row counter. -/
structure TdsFdwExecutionState where
  query : Option String
  first : Bool
  row : Nat

/-- Remote responses consumed by one tdsIterateForeignScan call. -/
structure IterateRemote where
  cmdRet : Bool
  sqlexecRet : Bool
  resultsRet : ResultsRet
  nextrowRet : NextrowRet
  columns : List ColumnData
  lib : ConvertLib

/-- What tdsIterateForeignScan stores into the scan tuple slot: a row of
cells, or the empty slot signalling end of data. -/
inductive SlotResult where
  | row (cells : List Cell)
  | empty

/-- The `if (festate->first)` block of tdsIterateForeignScan
(tds_fdw.c:1155-1233): on the first call only, clear the flag, then
dbcmd, dbsqlexec and dbresults; FAIL, NO_MORE_RESULTS and unknown codes
from dbresults are all fatal errors. -/
def tdsIterateFirstPhase (r : IterateRemote) (fe : TdsFdwExecutionState) :
    Except TdsError TdsFdwExecutionState × List DbOp :=
  if fe.first then
    let cleared := { fe with first := false }
    if r.cmdRet = false then
      (.error (.executionError "Failed to set current query"), [DbOp.dbcmd])
    else if r.sqlexecRet = false then
      (.error (.executionError "Failed to execute query"), [DbOp.dbcmd, DbOp.dbsqlexec])
    else
      match r.resultsRet with
      | .fail =>
        (.error (.executionError "Failed to get results from query"),
          [DbOp.dbcmd, DbOp.dbsqlexec, DbOp.dbresults])
      | .noMoreResults =>
        (.error (.executionError "There appears to be no results from query"),
          [DbOp.dbcmd, DbOp.dbsqlexec, DbOp.dbresults])
      | .succeed => (.ok cleared, [DbOp.dbcmd, DbOp.dbsqlexec, DbOp.dbresults])
      | .other =>
        (.error (.executionError "Unknown return code getting results from query"),
          [DbOp.dbcmd, DbOp.dbsqlexec, DbOp.dbresults])
  else (.ok fe, [])

/-- The dbnextrow part of tdsIterateForeignScan (tds_fdw.c:1241-1393):
REG_ROW builds the row of cells and bumps the row counter, NO_MORE_ROWS
returns the empty slot, BUF_FULL is a fatal resource error, FAIL and
unknown codes are fatal execution errors. -/
def tdsFetchRow (r : IterateRemote) (fe : TdsFdwExecutionState) :
    Except TdsError (TdsFdwExecutionState × SlotResult) × List DbOp :=
  match r.nextrowRet with
  | .regRow =>
    let cells := tdsRowCells r.lib r.columns
    (.ok ({ fe with row := fe.row + 1 }, .row (cells.map Prod.fst)),
      DbOp.dbnextrow :: (cells.map Prod.snd).flatten)
  | .bufFull => (.error (.resourceError "Buffer filled up during query"), [DbOp.dbnextrow])
  | .fail => (.error (.executionError "Failed to get row during query"), [DbOp.dbnextrow])
  | .noMoreRows => (.ok (fe, .empty), [DbOp.dbnextrow])
  | .other =>
    (.error (.executionError "Failed to get row during query. Unknown return code."),
      [DbOp.dbnextrow])

/-- tdsIterateForeignScan (tds_fdw.c:1138-1402): the lazy first-call
compile/execute phase followed by one row fetch. -/
def tdsIterateForeignScan (r : IterateRemote) (fe : TdsFdwExecutionState) :
    Except TdsError (TdsFdwExecutionState × SlotResult) × List DbOp :=
  let fp := tdsIterateFirstPhase r fe
  match fp.1 with
  | .error e => (.error e, fp.2)
  | .ok fe' => ((tdsFetchRow r fe').1, fp.2 ++ (tdsFetchRow r fe').2)

/-- The body of tdsBeginForeignScan after option resolution
(tds_fdw.c:1075-1124): dbinit, install the error and message handlers,
dblogin, set up the connection, and build the execution state with the
first-call flag set. -/
def tdsBeginAfterOptions (r : BeginRemote) (os : TdsFdwOptionSet) :
    Except TdsError TdsFdwExecutionState × List DbOp :=
  if r.initRet = false then
    (.error (.resourceError "Failed to initialize DB-Library environment"), [DbOp.dbinit])
  else if r.loginRet = false then
    (.error (.resourceError "Failed to initialize DB-Library login structure"),
      [DbOp.dbinit, DbOp.dberrhandle, DbOp.dbmsghandle, DbOp.dblogin])
  else
    let su := tdsSetupConnection r os
    match su.1 with
    | .error e =>
      (.error e, [DbOp.dbinit, DbOp.dberrhandle, DbOp.dbmsghandle, DbOp.dblogin] ++ su.2)
    | .ok os' =>
      (.ok { query := os'.query, first := true, row := 0 },
        [DbOp.dbinit, DbOp.dberrhandle, DbOp.dbmsghandle, DbOp.dblogin] ++ su.2)

/-- tdsBeginForeignScan (tds_fdw.c:1060-1134): resolve options, then open
the session lazily with respect to the query: no dbcmd, dbsqlexec or
dbresults happens here. -/
def tdsBeginForeignScan (r : BeginRemote) (tableOpts serverOpts mappingOpts : List (String × String)) :
    Except TdsError TdsFdwExecutionState × List DbOp :=
  match tdsGetOptions tableOpts serverOpts mappingOpts with
  | .error e => (.error e, [])
  | .ok os => tdsBeginAfterOptions r os

/-- tdsEndForeignScan (tds_fdw.c:1423-1467): free the query string if set,
then dbclose, dbloginfree and dbexit unconditionally, in that order. -/
def tdsEndForeignScan (fe : TdsFdwExecutionState) : List DbOp :=
  (if fe.query.isSome then [DbOp.pfreeQuery] else [])
    ++ [DbOp.dbclose, DbOp.dbloginfree, DbOp.dbexit]

/-- Remote responses consumed by one tdsGetRowCount call: the four call
results and the DBCOUNT value of the connection. -/
structure RowCountRemote where
  cmdRet : Bool
  sqlexecRet : Bool
  resultsRet : ResultsRet
  nextrowRet : NextrowRet
  dbcount : Int
  deriving Repr

/-- tdsGetRowCount (tds_fdw.c:786-930): dbcmd, dbsqlexec, dbresults; a
NO_MORE_RESULTS result set returns the initial rows_report of 0; on
SUCCEED fetch at most one row (REG_ROW and NO_MORE_ROWS both fall through
to DBCOUNT; BUF_FULL, FAIL and unknown codes are fatal), then return
DBCOUNT. -/
def tdsGetRowCount (r : RowCountRemote) : Except TdsError Int × List DbOp :=
  if r.cmdRet = false then
    (.error (.executionError "Failed to set current query"), [DbOp.dbcmd])
  else if r.sqlexecRet = false then
    (.error (.executionError "Failed to execute query"), [DbOp.dbcmd, DbOp.dbsqlexec])
  else
    match r.resultsRet with
    | .fail =>
      (.error (.executionError "Failed to get results from query"),
        [DbOp.dbcmd, DbOp.dbsqlexec, DbOp.dbresults])
    | .noMoreResults => (.ok 0, [DbOp.dbcmd, DbOp.dbsqlexec, DbOp.dbresults])
    | .other =>
      (.error (.executionError "Unknown return code getting results from query"),
        [DbOp.dbcmd, DbOp.dbsqlexec, DbOp.dbresults])
    | .succeed =>
      match r.nextrowRet with
      | .regRow =>
        (.ok r.dbcount, [DbOp.dbcmd, DbOp.dbsqlexec, DbOp.dbresults, DbOp.dbnextrow])
      | .noMoreRows =>
        (.ok r.dbcount, [DbOp.dbcmd, DbOp.dbsqlexec, DbOp.dbresults, DbOp.dbnextrow])
      | .bufFull =>
        (.error (.resourceError "Buffer filled up while getting plan for query"),
          [DbOp.dbcmd, DbOp.dbsqlexec, DbOp.dbresults, DbOp.dbnextrow])
      | .fail =>
        (.error (.executionError "Failed to get row while getting plan for query"),
          [DbOp.dbcmd, DbOp.dbsqlexec, DbOp.dbresults, DbOp.dbnextrow])
      | .other =>
        (.error (.executionError "Failed to get plan for query. Unknown return code."),
          [DbOp.dbcmd, DbOp.dbsqlexec, DbOp.dbresults, DbOp.dbnextrow])

/-- tdsGetForeignRelSize (tds_fdw.c:1472-1542): resolve options, dbinit,
install handlers, dblogin, set up the connection, run tdsGetRowCount,
then release the connection, the login record and the runtime.  The
release steps after the `cleanup:` label run only when control reaches
them normally; an `ereport(ERROR, ...)` inside any of the earlier steps
unwinds past them. -/
def tdsGetForeignRelSize (br : BeginRemote) (rr : RowCountRemote)
    (tableOpts serverOpts mappingOpts : List (String × String)) :
    Except TdsError Int × List DbOp :=
  match tdsGetOptions tableOpts serverOpts mappingOpts with
  | .error e => (.error e, [])
  | .ok os =>
    if br.initRet = false then
      (.error (.resourceError "Failed to initialize DB-Library environment"), [DbOp.dbinit])
    else if br.loginRet = false then
      (.error (.resourceError "Failed to initialize DB-Library login structure"),
        [DbOp.dbinit, DbOp.dberrhandle, DbOp.dbmsghandle, DbOp.dblogin])
    else
      let su := tdsSetupConnection br os
      match su.1 with
      | .error e =>
        (.error e, [DbOp.dbinit, DbOp.dberrhandle, DbOp.dbmsghandle, DbOp.dblogin] ++ su.2)
      | .ok _ =>
        let rc := tdsGetRowCount rr
        match rc.1 with
        | .error e =>
          (.error e,
            [DbOp.dbinit, DbOp.dberrhandle, DbOp.dbmsghandle, DbOp.dblogin] ++ su.2 ++ rc.2)
        | .ok n =>
          (.ok n,
            [DbOp.dbinit, DbOp.dberrhandle, DbOp.dbmsghandle, DbOp.dblogin] ++ su.2 ++ rc.2
              ++ [DbOp.dbclose, DbOp.dbloginfree, DbOp.dbexit])

/-- tdsGetStartupCost (tds_fdw.c:934-956): 0 for 127.0.0.1 or localhost,
25 otherwise.  tdsGetOptions guarantees servername is set, so the default
"" is never compared in practice. -/
def tdsGetStartupCost (os : TdsFdwOptionSet) : Int :=
  if os.servername.getD "" = "127.0.0.1" ∨ os.servername.getD "" = "localhost" then 0
  else 25

/-- tdsEstimateCosts (tds_fdw.c:1544-1565): resolve options, take the
startup cost, and add the planner's row estimate for the total cost. -/
def tdsEstimateCosts (rows : Int) (tableOpts serverOpts mappingOpts : List (String × String)) :
    Except TdsError (Int × Int) :=
  match tdsGetOptions tableOpts serverOpts mappingOpts with
  | .error e => .error e
  | .ok os => .ok (tdsGetStartupCost os, rows + tdsGetStartupCost os)

/-- Last value bound to an option name in one flat options list: the
last occurrence wins, matching the overwrite semantics of the foreach in
tdsGetOptions. -/
def lastValue (opts : List (String × String)) (n : String) : Option String :=
  opts.foldl (fun acc p => if p.1 = n then some p.2 else acc) none

/-- Left-biased choice on options, used to phrase the precedence facts. -/
def optOr (a b : Option String) : Option String :=
  match a with
  | some v => some v
  | none => b

/-- Conversion library whose conversions always succeed (witness input). -/
def libConvOkEx : ConvertLib :=
  { willconvert := fun _ _ => true, convert := fun _ _ _ _ _ => some "42" }

/-- Conversion library that accepts the conversion but whose dbconvert
reports failure or the -1 null-pointer/bad-type condition. -/
def libConvFailEx : ConvertLib :=
  { willconvert := fun _ _ => true, convert := fun _ _ _ _ _ => none }

/-- Conversion library whose dbwillconvert denies the conversion. -/
def libNoConvEx : ConvertLib :=
  { willconvert := fun _ _ => false, convert := fun _ _ _ _ _ => none }

/-- A remote whose session-establishment calls all succeed. -/
def brOkEx : BeginRemote :=
  { initRet := true, loginRet := true, openRet := true, useRet := true }

/-- Row-count estimation remote: query runs, one result set, 3 rows. -/
def rcOkEx : RowCountRemote :=
  { cmdRet := true, sqlexecRet := true, resultsRet := .succeed,
    nextrowRet := .regRow, dbcount := 3 }

/-- Row-count estimation remote: query runs but yields no result set. -/
def rcNoResEx : RowCountRemote :=
  { cmdRet := true, sqlexecRet := true, resultsRet := .noMoreResults,
    nextrowRet := .noMoreRows, dbcount := 3 }

/-- Row-count estimation remote whose dbcmd fails. -/
def rcCmdFailEx : RowCountRemote :=
  { cmdRet := false, sqlexecRet := true, resultsRet := .succeed,
    nextrowRet := .regRow, dbcount := 3 }

/-- Scan remote for one successful iteration: compile, execute and
result retrieval succeed and one regular row with a single SYBINT4
column (type code 56) is returned. -/
def rIterEx : IterateRemote :=
  { cmdRet := true, sqlexecRet := true, resultsRet := .succeed,
    nextrowRet := .regRow, columns := [{ srctype := 56, srclen := 4, src := some [1, 0, 0, 0] }],
    lib := libConvOkEx }

/-- Execution state as produced by scan-begin: first-call flag set. -/
def feFirstEx : TdsFdwExecutionState :=
  { query := some "SELECT * FROM t", first := true, row := 0 }

/-- Option set supplying only table=employees. -/
def osEmployeesEx : TdsFdwOptionSet :=
  { tdsOptionSetInit with table := some "employees" }

theorem applyOption_servername (os : TdsFdwOptionSet) (p : String × String) :
    (applyOption os p).servername = if p.1 = "servername" then some p.2 else os.servername := by
  unfold applyOption
  split_ifs <;> simp_all

theorem applyOption_language (os : TdsFdwOptionSet) (p : String × String) :
    (applyOption os p).language = if p.1 = "language" then some p.2 else os.language := by
  unfold applyOption
  split_ifs <;> simp_all

theorem applyOption_character_set (os : TdsFdwOptionSet) (p : String × String) :
    (applyOption os p).character_set =
      if p.1 = "character_set" then some p.2 else os.character_set := by
  unfold applyOption
  split_ifs <;> simp_all

theorem applyOption_port (os : TdsFdwOptionSet) (p : String × String) :
    (applyOption os p).port = if p.1 = "port" then atoi p.2 else os.port := by
  unfold applyOption
  split_ifs <;> simp_all

theorem applyOption_username (os : TdsFdwOptionSet) (p : String × String) :
    (applyOption os p).username = if p.1 = "username" then some p.2 else os.username := by
  unfold applyOption
  split_ifs <;> simp_all

theorem applyOption_password (os : TdsFdwOptionSet) (p : String × String) :
    (applyOption os p).password = if p.1 = "password" then some p.2 else os.password := by
  unfold applyOption
  split_ifs <;> simp_all

theorem applyOption_database (os : TdsFdwOptionSet) (p : String × String) :
    (applyOption os p).database = if p.1 = "database" then some p.2 else os.database := by
  unfold applyOption
  split_ifs <;> simp_all

theorem applyOption_query (os : TdsFdwOptionSet) (p : String × String) :
    (applyOption os p).query = if p.1 = "query" then some p.2 else os.query := by
  unfold applyOption
  split_ifs <;> simp_all

theorem applyOption_table (os : TdsFdwOptionSet) (p : String × String) :
    (applyOption os p).table = if p.1 = "table" then some p.2 else os.table := by
  unfold applyOption
  split_ifs <;> simp_all

theorem lastValue_foldl (n : String) :
    ∀ (opts : List (String × String)) (acc : Option String),
      opts.foldl (fun a p => if p.1 = n then some p.2 else a) acc
        = optOr (lastValue opts n) acc := by
  intro opts
  induction opts with
  | nil => intro acc; simp [lastValue, optOr]
  | cons p rest ih =>
    intro acc
    have hl : lastValue (p :: rest) n
        = optOr (lastValue rest n) (if p.1 = n then some p.2 else none) := by
      simp only [lastValue, List.foldl_cons]
      exact ih _
    simp only [List.foldl_cons]
    rw [ih, hl]
    cases h : lastValue rest n <;> split_ifs <;> simp [optOr]

theorem lastValue_append (l1 l2 : List (String × String)) (n : String) :
    lastValue (l1 ++ l2) n = optOr (lastValue l2 n) (lastValue l1 n) := by
  simp only [lastValue, List.foldl_append]
  exact lastValue_foldl n l2 _

theorem foldl_applyOption_field {A : Type} (g : TdsFdwOptionSet → A) (conv : String → A)
    (n : String)
    (hstep : ∀ os p, g (applyOption os p) = if p.1 = n then conv p.2 else g os) :
    ∀ (opts : List (String × String)) (os : TdsFdwOptionSet),
      g (opts.foldl applyOption os) = (lastValue opts n).elim (g os) conv := by
  intro opts
  induction opts with
  | nil => intro os; simp [lastValue]
  | cons p rest ih =>
    intro os
    have hl : lastValue (p :: rest) n
        = optOr (lastValue rest n) (if p.1 = n then some p.2 else none) := by
      simp only [lastValue, List.foldl_cons]
      exact lastValue_foldl n rest _
    simp only [List.foldl_cons]
    rw [ih, hstep, hl]
    cases h : lastValue rest n <;> split_ifs <;> simp [optOr]

theorem optElim_none_some (o : Option String) : o.elim none some = o := by
  cases o <;> rfl

/-- C9: when the same option name is supplied at more than one level, the
merged value produced by the option-resolution loop is the one from the
last occurrence in the concatenation order table-level, then
server-level, then credential-level (user mapping): each field of the
merged set equals the last value bound to its name in the concatenated
list, and the last value of the concatenated list takes the credential
list over the server list over the table list. -/
theorem tds_option_precedence (t s m : List (String × String)) :
    ((tdsGetOptionsMerge (t ++ s ++ m)).servername = lastValue (t ++ s ++ m) "servername"
      ∧ (tdsGetOptionsMerge (t ++ s ++ m)).language = lastValue (t ++ s ++ m) "language"
      ∧ (tdsGetOptionsMerge (t ++ s ++ m)).character_set = lastValue (t ++ s ++ m) "character_set"
      ∧ (tdsGetOptionsMerge (t ++ s ++ m)).port = (lastValue (t ++ s ++ m) "port").elim 0 atoi
      ∧ (tdsGetOptionsMerge (t ++ s ++ m)).username = lastValue (t ++ s ++ m) "username"
      ∧ (tdsGetOptionsMerge (t ++ s ++ m)).password = lastValue (t ++ s ++ m) "password"
      ∧ (tdsGetOptionsMerge (t ++ s ++ m)).database = lastValue (t ++ s ++ m) "database"
      ∧ (tdsGetOptionsMerge (t ++ s ++ m)).query = lastValue (t ++ s ++ m) "query"
      ∧ (tdsGetOptionsMerge (t ++ s ++ m)).table = lastValue (t ++ s ++ m) "table")
    ∧ (∀ n : String,
        lastValue (t ++ s ++ m) n = optOr (lastValue m n) (optOr (lastValue s n) (lastValue t n))) := by
  simp only [tdsGetOptionsMerge]
  constructor
  · refine ⟨?_, ?_, ?_, ?_, ?_, ?_, ?_, ?_, ?_⟩
    · rw [foldl_applyOption_field (fun os => os.servername) some "servername"
        applyOption_servername (t ++ s ++ m) tdsOptionSetInit]
      exact optElim_none_some _
    · rw [foldl_applyOption_field (fun os => os.language) some "language"
        applyOption_language (t ++ s ++ m) tdsOptionSetInit]
      exact optElim_none_some _
    · rw [foldl_applyOption_field (fun os => os.character_set) some "character_set"
        applyOption_character_set (t ++ s ++ m) tdsOptionSetInit]
      exact optElim_none_some _
    · exact foldl_applyOption_field (fun os => os.port) atoi "port"
        applyOption_port (t ++ s ++ m) tdsOptionSetInit
    · rw [foldl_applyOption_field (fun os => os.username) some "username"
        applyOption_username (t ++ s ++ m) tdsOptionSetInit]
      exact optElim_none_some _
    · rw [foldl_applyOption_field (fun os => os.password) some "password"
        applyOption_password (t ++ s ++ m) tdsOptionSetInit]
      exact optElim_none_some _
    · rw [foldl_applyOption_field (fun os => os.database) some "database"
        applyOption_database (t ++ s ++ m) tdsOptionSetInit]
      exact optElim_none_some _
    · rw [foldl_applyOption_field (fun os => os.query) some "query"
        applyOption_query (t ++ s ++ m) tdsOptionSetInit]
      exact optElim_none_some _
    · rw [foldl_applyOption_field (fun os => os.table) some "table"
        applyOption_table (t ++ s ++ m) tdsOptionSetInit]
      exact optElim_none_some _
  · intro n
    rw [lastValue_append, lastValue_append]

/-- C1 counterexample: supplying both `query` and `table` does NOT make
option resolution fail: tdsGetOptions, the step that builds the merged
option set the connection is opened from, returns successfully with both
fields set (its only required-option check is that at least one of the
two is present, tds_fdw.c:582-588). -/
theorem tds_resolution_accepts_query_and_table :
    tdsGetOptions [("query", "SELECT id FROM t"), ("table", "t")] [] []
      = .ok { servername := some "127.0.0.1", language := none, character_set := none,
              port := 0, username := none, password := none, database := none,
              query := some "SELECT id FROM t", table := some "t" } := by
  rfl

theorem stepEq_servername (c : Catalog) (os : TdsFdwOptionSet) (v : String) :
    tdsValidatorStep c os ("servername", v) =
      if tdsIsValidOption "servername" c = false then
        .error (.configurationError ("Invalid option " ++ "servername"))
      else if os.servername.isSome then .error (.configurationError "Redundant option: servername")
      else .ok { os with servername := some v } := by
  simp only [tdsValidatorStep]
  simp

theorem stepEq_language (c : Catalog) (os : TdsFdwOptionSet) (v : String) :
    tdsValidatorStep c os ("language", v) =
      if tdsIsValidOption "language" c = false then
        .error (.configurationError ("Invalid option " ++ "language"))
      else if os.language.isSome then .error (.configurationError "Redundant option: language")
      else .ok { os with language := some v } := by
  simp only [tdsValidatorStep]
  simp

theorem stepEq_character_set (c : Catalog) (os : TdsFdwOptionSet) (v : String) :
    tdsValidatorStep c os ("character_set", v) =
      if tdsIsValidOption "character_set" c = false then
        .error (.configurationError ("Invalid option " ++ "character_set"))
      else if os.character_set.isSome then .error (.configurationError "Redundant option: character_set")
      else .ok { os with character_set := some v } := by
  simp only [tdsValidatorStep]
  simp

theorem stepEq_username (c : Catalog) (os : TdsFdwOptionSet) (v : String) :
    tdsValidatorStep c os ("username", v) =
      if tdsIsValidOption "username" c = false then
        .error (.configurationError ("Invalid option " ++ "username"))
      else if os.username.isSome then .error (.configurationError "Redundant option: username")
      else .ok { os with username := some v } := by
  simp only [tdsValidatorStep]
  simp

theorem stepEq_password (c : Catalog) (os : TdsFdwOptionSet) (v : String) :
    tdsValidatorStep c os ("password", v) =
      if tdsIsValidOption "password" c = false then
        .error (.configurationError ("Invalid option " ++ "password"))
      else if os.password.isSome then .error (.configurationError "Redundant option: password")
      else .ok { os with password := some v } := by
  simp only [tdsValidatorStep]
  simp

theorem stepEq_database (c : Catalog) (os : TdsFdwOptionSet) (v : String) :
    tdsValidatorStep c os ("database", v) =
      if tdsIsValidOption "database" c = false then
        .error (.configurationError ("Invalid option " ++ "database"))
      else if os.database.isSome then .error (.configurationError "Redundant option: database")
      else .ok { os with database := some v } := by
  simp only [tdsValidatorStep]
  simp

theorem stepEq_port (c : Catalog) (os : TdsFdwOptionSet) (v : String) :
    tdsValidatorStep c os ("port", v) =
      if tdsIsValidOption "port" c = false then
        .error (.configurationError ("Invalid option " ++ "port"))
      else if os.port = 0 then .ok { os with port := atoi v }
      else .error (.configurationError "Redundant option: port") := by
  simp only [tdsValidatorStep]
  simp

theorem stepEq_query (c : Catalog) (os : TdsFdwOptionSet) (v : String) :
    tdsValidatorStep c os ("query", v) =
      if tdsIsValidOption "query" c = false then
        .error (.configurationError ("Invalid option " ++ "query"))
      else if os.table.isSome then
        .error (.configurationError "Conflicting options: query cannot be used with table")
      else if os.query.isSome then .error (.configurationError "Redundant option: query")
      else .ok { os with query := some v } := by
  simp only [tdsValidatorStep]
  simp

theorem stepEq_table (c : Catalog) (os : TdsFdwOptionSet) (v : String) :
    tdsValidatorStep c os ("table", v) =
      if tdsIsValidOption "table" c = false then
        .error (.configurationError ("Invalid option " ++ "table"))
      else if os.query.isSome then
        .error (.configurationError "Conflicting options: table cannot be used with query")
      else if os.table.isSome then .error (.configurationError "Redundant option: table")
      else .ok { os with table := some v } := by
  simp only [tdsValidatorStep]
  simp

theorem stepEq_other (c : Catalog) (os : TdsFdwOptionSet) (n v : String)
    (h1 : n ≠ "servername") (h2 : n ≠ "language") (h3 : n ≠ "character_set")
    (h4 : n ≠ "port") (h5 : n ≠ "username") (h6 : n ≠ "password")
    (h7 : n ≠ "database") (h8 : n ≠ "query") (h9 : n ≠ "table") :
    tdsValidatorStep c os (n, v) =
      if tdsIsValidOption n c = false then
        .error (.configurationError ("Invalid option " ++ n))
      else .ok os := by
  simp only [tdsValidatorStep]
  simp [h1, h2, h3, h4, h5, h6, h7, h8, h9]

theorem tdsValidatorStep_mono (c : Catalog) (os : TdsFdwOptionSet) (p : String × String)
    (os' : TdsFdwOptionSet) (h : tdsValidatorStep c os p = .ok os') :
    (os.query.isSome → os'.query.isSome) ∧ (os.table.isSome → os'.table.isSome) := by
  obtain ⟨n, v⟩ := p
  by_cases h1 : n = "servername"
  · subst h1
    rw [stepEq_servername] at h
    split_ifs at h <;> (try injection h with h) <;>
      first | (exact ⟨_, h.symm⟩) | (subst h; simp_all) | simp_all
  by_cases h2 : n = "language"
  · subst h2
    rw [stepEq_language] at h
    split_ifs at h <;> (try injection h with h) <;>
      first | (exact ⟨_, h.symm⟩) | (subst h; simp_all) | simp_all
  by_cases h3 : n = "character_set"
  · subst h3
    rw [stepEq_character_set] at h
    split_ifs at h <;> (try injection h with h) <;>
      first | (exact ⟨_, h.symm⟩) | (subst h; simp_all) | simp_all
  by_cases h4 : n = "port"
  · subst h4
    rw [stepEq_port] at h
    split_ifs at h <;> (try injection h with h) <;>
      first | (exact ⟨_, h.symm⟩) | (subst h; simp_all) | simp_all
  by_cases h5 : n = "username"
  · subst h5
    rw [stepEq_username] at h
    split_ifs at h <;> (try injection h with h) <;>
      first | (exact ⟨_, h.symm⟩) | (subst h; simp_all) | simp_all
  by_cases h6 : n = "password"
  · subst h6
    rw [stepEq_password] at h
    split_ifs at h <;> (try injection h with h) <;>
      first | (exact ⟨_, h.symm⟩) | (subst h; simp_all) | simp_all
  by_cases h7 : n = "database"
  · subst h7
    rw [stepEq_database] at h
    split_ifs at h <;> (try injection h with h) <;>
      first | (exact ⟨_, h.symm⟩) | (subst h; simp_all) | simp_all
  by_cases h8 : n = "query"
  · subst h8
    rw [stepEq_query] at h
    split_ifs at h <;> (try injection h with h) <;>
      first | (exact ⟨_, h.symm⟩) | (subst h; simp_all) | simp_all
  by_cases h9 : n = "table"
  · subst h9
    rw [stepEq_table] at h
    split_ifs at h <;> (try injection h with h) <;>
      first | (exact ⟨_, h.symm⟩) | (subst h; simp_all) | simp_all
  rw [stepEq_other c os n v h1 h2 h3 h4 h5 h6 h7 h8 h9] at h
  split_ifs at h <;> (try injection h with h) <;>
      first | (exact ⟨_, h.symm⟩) | (subst h; simp_all) | simp_all

theorem tdsValidatorStep_error_shape (c : Catalog) (os : TdsFdwOptionSet) (p : String × String)
    (e : TdsError) (h : tdsValidatorStep c os p = .error e) :
    ∃ msg, e = .configurationError msg := by
  obtain ⟨n, v⟩ := p
  by_cases h1 : n = "servername"
  · subst h1
    rw [stepEq_servername] at h
    split_ifs at h <;> (try injection h with h) <;>
      first | (exact ⟨_, h.symm⟩) | (subst h; simp_all) | simp_all
  by_cases h2 : n = "language"
  · subst h2
    rw [stepEq_language] at h
    split_ifs at h <;> (try injection h with h) <;>
      first | (exact ⟨_, h.symm⟩) | (subst h; simp_all) | simp_all
  by_cases h3 : n = "character_set"
  · subst h3
    rw [stepEq_character_set] at h
    split_ifs at h <;> (try injection h with h) <;>
      first | (exact ⟨_, h.symm⟩) | (subst h; simp_all) | simp_all
  by_cases h4 : n = "port"
  · subst h4
    rw [stepEq_port] at h
    split_ifs at h <;> (try injection h with h) <;>
      first | (exact ⟨_, h.symm⟩) | (subst h; simp_all) | simp_all
  by_cases h5 : n = "username"
  · subst h5
    rw [stepEq_username] at h
    split_ifs at h <;> (try injection h with h) <;>
      first | (exact ⟨_, h.symm⟩) | (subst h; simp_all) | simp_all
  by_cases h6 : n = "password"
  · subst h6
    rw [stepEq_password] at h
    split_ifs at h <;> (try injection h with h) <;>
      first | (exact ⟨_, h.symm⟩) | (subst h; simp_all) | simp_all
  by_cases h7 : n = "database"
  · subst h7
    rw [stepEq_database] at h
    split_ifs at h <;> (try injection h with h) <;>
      first | (exact ⟨_, h.symm⟩) | (subst h; simp_all) | simp_all
  by_cases h8 : n = "query"
  · subst h8
    rw [stepEq_query] at h
    split_ifs at h <;> (try injection h with h) <;>
      first | (exact ⟨_, h.symm⟩) | (subst h; simp_all) | simp_all
  by_cases h9 : n = "table"
  · subst h9
    rw [stepEq_table] at h
    split_ifs at h <;> (try injection h with h) <;>
      first | (exact ⟨_, h.symm⟩) | (subst h; simp_all) | simp_all
  rw [stepEq_other c os n v h1 h2 h3 h4 h5 h6 h7 h8 h9] at h
  split_ifs at h <;> (try injection h with h) <;>
      first | (exact ⟨_, h.symm⟩) | (subst h; simp_all) | simp_all

theorem tdsValidatorStep_ok_query (c : Catalog) (os : TdsFdwOptionSet) (v : String)
    (os' : TdsFdwOptionSet) (h : tdsValidatorStep c os ("query", v) = .ok os') :
    os'.query.isSome := by
  rw [stepEq_query] at h
  split_ifs at h <;> (try injection h with h) <;>
    first | (subst h; simp) | simp_all

theorem tdsValidatorStep_ok_table (c : Catalog) (os : TdsFdwOptionSet) (v : String)
    (os' : TdsFdwOptionSet) (h : tdsValidatorStep c os ("table", v) = .ok os') :
    os'.table.isSome := by
  rw [stepEq_table] at h
  split_ifs at h <;> (try injection h with h) <;>
    first | (subst h; simp) | simp_all

theorem tdsValidatorFold_fails_table :
    ∀ (opts : List (String × String)) (os : TdsFdwOptionSet),
      os.query.isSome → "table" ∈ opts.map Prod.fst →
      ∃ msg, tdsValidatorFold .foreignTable os opts = .error (.configurationError msg) := by
  intro opts
  induction opts with
  | nil => intro os _ hmem; simp at hmem
  | cons p rest ih =>
    intro os hq hmem
    obtain ⟨n, v⟩ := p
    cases hstep : tdsValidatorStep .foreignTable os (n, v) with
    | error e =>
      obtain ⟨msg, rfl⟩ := tdsValidatorStep_error_shape _ _ _ _ hstep
      exact ⟨msg, by simp [tdsValidatorFold, hstep]⟩
    | ok os' =>
      by_cases hn : n = "table"
      · subst hn
        rw [stepEq_table] at hstep
        have hv : tdsIsValidOption "table" Catalog.foreignTable = true := by decide
        rw [hv] at hstep
        simp [hq] at hstep
      · have hmem' : "table" ∈ rest.map Prod.fst := by
          simp only [List.map_cons, List.mem_cons] at hmem
          rcases hmem with hmem | hmem
          · exact absurd hmem.symm hn
          · exact hmem
        have hq' := (tdsValidatorStep_mono _ _ _ _ hstep).1 hq
        obtain ⟨msg, hfold⟩ := ih os' hq' hmem'
        exact ⟨msg, by simp [tdsValidatorFold, hstep, hfold]⟩

theorem tdsValidatorFold_fails_query :
    ∀ (opts : List (String × String)) (os : TdsFdwOptionSet),
      os.table.isSome → "query" ∈ opts.map Prod.fst →
      ∃ msg, tdsValidatorFold .foreignTable os opts = .error (.configurationError msg) := by
  intro opts
  induction opts with
  | nil => intro os _ hmem; simp at hmem
  | cons p rest ih =>
    intro os ht hmem
    obtain ⟨n, v⟩ := p
    cases hstep : tdsValidatorStep .foreignTable os (n, v) with
    | error e =>
      obtain ⟨msg, rfl⟩ := tdsValidatorStep_error_shape _ _ _ _ hstep
      exact ⟨msg, by simp [tdsValidatorFold, hstep]⟩
    | ok os' =>
      by_cases hn : n = "query"
      · subst hn
        rw [stepEq_query] at hstep
        have hv : tdsIsValidOption "query" Catalog.foreignTable = true := by decide
        rw [hv] at hstep
        simp [ht] at hstep
      · have hmem' : "query" ∈ rest.map Prod.fst := by
          simp only [List.map_cons, List.mem_cons] at hmem
          rcases hmem with hmem | hmem
          · exact absurd hmem.symm hn
          · exact hmem
        have ht' := (tdsValidatorStep_mono _ _ _ _ hstep).2 ht
        obtain ⟨msg, hfold⟩ := ih os' ht' hmem'
        exact ⟨msg, by simp [tdsValidatorFold, hstep, hfold]⟩

theorem tdsValidatorFold_fails_both :
    ∀ (opts : List (String × String)) (os : TdsFdwOptionSet),
      "query" ∈ opts.map Prod.fst → "table" ∈ opts.map Prod.fst →
      ∃ msg, tdsValidatorFold .foreignTable os opts = .error (.configurationError msg) := by
  intro opts
  induction opts with
  | nil => intro os hq _; simp at hq
  | cons p rest ih =>
    intro os hq ht
    obtain ⟨n, v⟩ := p
    cases hstep : tdsValidatorStep .foreignTable os (n, v) with
    | error e =>
      obtain ⟨msg, rfl⟩ := tdsValidatorStep_error_shape _ _ _ _ hstep
      exact ⟨msg, by simp [tdsValidatorFold, hstep]⟩
    | ok os' =>
      by_cases hnq : n = "query"
      · subst hnq
        have hq' := tdsValidatorStep_ok_query _ _ _ _ hstep
        have ht' : "table" ∈ rest.map Prod.fst := by
          simp only [List.map_cons, List.mem_cons] at ht
          rcases ht with ht | ht
          · exact absurd ht.symm (by decide)
          · exact ht
        obtain ⟨msg, hfold⟩ := tdsValidatorFold_fails_table rest os' hq' ht'
        exact ⟨msg, by simp [tdsValidatorFold, hstep, hfold]⟩
      · by_cases hnt : n = "table"
        · subst hnt
          have ht' := tdsValidatorStep_ok_table _ _ _ _ hstep
          have hq' : "query" ∈ rest.map Prod.fst := by
            simp only [List.map_cons, List.mem_cons] at hq
            rcases hq with hq | hq
            · exact absurd hq.symm (by decide)
            · exact hq
          obtain ⟨msg, hfold⟩ := tdsValidatorFold_fails_query rest os' ht' hq'
          exact ⟨msg, by simp [tdsValidatorFold, hstep, hfold]⟩
        · have hq' : "query" ∈ rest.map Prod.fst := by
            simp only [List.map_cons, List.mem_cons] at hq
            rcases hq with hq | hq
            · exact absurd hq.symm hnq
            · exact hq
          have ht' : "table" ∈ rest.map Prod.fst := by
            simp only [List.map_cons, List.mem_cons] at ht
            rcases ht with ht | ht
            · exact absurd ht.symm hnt
            · exact ht
          obtain ⟨msg, hfold⟩ := ih os' hq' ht'
          exact ⟨msg, by simp [tdsValidatorFold, hstep, hfold]⟩

/-- C1 (amended): an options list that supplies both `query` and `table`
is rejected with a configuration error by the definition-time validator
(tds_fdw_validator, run for the table-level context), before any
connection is attempted — the validator makes no DB-Library call at all.
Option resolution (tdsGetOptions) itself performs no query/table
conflict check and succeeds when both are present (see the
counterexample theorem). -/
theorem tds_validator_rejects_query_with_table (opts : List (String × String))
    (hq : "query" ∈ opts.map Prod.fst) (ht : "table" ∈ opts.map Prod.fst) :
    ∃ msg, tds_fdw_validator .foreignTable opts = .error (.configurationError msg) := by
  obtain ⟨msg, hf⟩ := tdsValidatorFold_fails_both opts tdsOptionSetInit hq ht
  exact ⟨msg, by simp [tds_fdw_validator, hf]⟩

/-- C1 witness: the validator rejects the concrete pair of options
`query=SELECT id FROM t`, `table=t`. -/
theorem tds_validator_rejects_query_with_table_w :
    ∃ msg, tds_fdw_validator .foreignTable [("query", "SELECT id FROM t"), ("table", "t")]
      = .error (.configurationError msg) :=
  tds_validator_rejects_query_with_table _ (by decide) (by decide)

/-- C3: for every configuration that supplies `table` and not `query`,
the query resolved during connection setup equals the concatenation
"SELECT * FROM " ++ table, exactly. -/
theorem tds_table_query_synthesis (os : TdsFdwOptionSet) (t : String)
    (hq : os.query = none) (ht : os.table = some t) :
    (resolveQuery os).query = some ("SELECT * FROM " ++ t) := by
  simp [resolveQuery, hq, ht]

/-- C3 witness: table=employees resolves to SELECT * FROM employees. -/
theorem tds_table_query_synthesis_w :
    (resolveQuery osEmployeesEx).query = some "SELECT * FROM employees" :=
  (tds_table_query_synthesis osEmployeesEx "employees" rfl rfl).trans (by decide)

/-- C5 counterexample: a convert call that reports failure or the -1
null-pointer/bad-type condition does not produce a NULL cell: with a
library that accepts the conversion (dbwillconvert true) but whose
dbconvert fails, tdsConvertToCString returns the allocated buffer
(`Cell.alloc`, contents unspecified), not NULL (type code 56 is
SYBINT4). -/
theorem tds_convert_fail_not_null :
    libConvFailEx.willconvert 56 (desttypeFor 56) = true
    ∧ libConvFailEx.convert 56 [1, 0, 0, 0] 4 (desttypeFor 56) (destlenFor 56 4) = none
    ∧ (tdsConvertToCString libConvFailEx 56 [1, 0, 0, 0] 4).1 ≠ Cell.null
    ∧ (tdsConvertToCString libConvFailEx 56 [1, 0, 0, 0] 4).1 = Cell.alloc := by
  decide

/-- C5 (amended): conversion failures are non-fatal and the row
continues (every column of the row is processed, and the converter
raises no error by construction); the cell becomes NULL exactly in the
cannot-convert case (dbwillconvert false, no conversion attempted);
when dbconvert itself fails or reports the null/bad-type condition, the
function returns the freshly allocated buffer, with unspecified
contents, rather than NULL. -/
theorem tds_conversion_nonfatal (lib : ConvertLib) (srctype srclen : Int) (src : List Int) :
    (lib.willconvert srctype (desttypeFor srctype) = false →
      (tdsConvertToCString lib srctype src srclen).1 = Cell.null)
    ∧ (lib.willconvert srctype (desttypeFor srctype) = true →
      lib.convert srctype src srclen (desttypeFor srctype) (destlenFor srctype srclen) = none →
      (tdsConvertToCString lib srctype src srclen).1 = Cell.alloc)
    ∧ (∀ cols : List ColumnData, (tdsRowCells lib cols).length = cols.length) := by
  refine ⟨?_, ?_, ?_⟩
  · intro h; simp [tdsConvertToCString, h]
  · intro h1 h2; simp [tdsConvertToCString, h1, h2]
  · intro cols; simp [tdsRowCells]

/-- C5 witness: the cannot-convert case yields NULL, the convert-failure
case yields the allocated buffer, and a two-column row is processed in
full. -/
theorem tds_conversion_nonfatal_w :
    (tdsConvertToCString libNoConvEx 56 [1] 4).1 = Cell.null
    ∧ (tdsConvertToCString libConvFailEx 56 [1] 4).1 = Cell.alloc
    ∧ (tdsRowCells libConvFailEx
        [{ srctype := 56, srclen := 4, src := some [1] },
         { srctype := 56, srclen := 4, src := some [2] }]).length = 2 :=
  ⟨(tds_conversion_nonfatal libNoConvEx 56 4 [1]).1 rfl,
   (tds_conversion_nonfatal libConvFailEx 56 4 [1]).2.1 rfl rfl,
   (tds_conversion_nonfatal libConvFailEx 56 4 [1]).2.2 _⟩

/-- C6: a column whose reported data length is 0 or whose raw-data
pointer is NULL yields a NULL cell, with no conversion attempt (neither
dbwillconvert nor dbconvert is called) for that cell. -/
theorem tds_zero_or_null_gives_null_cell (lib : ConvertLib) (c : ColumnData)
    (h : c.srclen = 0 ∨ c.src = none) :
    (tdsGetColumnValue lib c).1 = Cell.null
    ∧ DbOp.dbwillconvert ∉ (tdsGetColumnValue lib c).2
    ∧ DbOp.dbconvert ∉ (tdsGetColumnValue lib c).2 := by
  unfold tdsGetColumnValue
  rcases h with h | h
  · simp [h]
  · by_cases hz : c.srclen = 0 <;> simp [hz, h]

/-- C6 witness: a zero-length SYBINT4 column yields NULL without any
conversion call even though its data pointer is non-NULL. -/
theorem tds_zero_or_null_gives_null_cell_w :
    (tdsGetColumnValue libConvOkEx { srctype := 56, srclen := 0, src := some [1] }).1 = Cell.null
    ∧ DbOp.dbwillconvert
        ∉ (tdsGetColumnValue libConvOkEx { srctype := 56, srclen := 0, src := some [1] }).2
    ∧ DbOp.dbconvert
        ∉ (tdsGetColumnValue libConvOkEx { srctype := 56, srclen := 0, src := some [1] }).2 :=
  tds_zero_or_null_gives_null_cell libConvOkEx _ (Or.inl rfl)

/-- C7: whatever state the scan is in when it is closed, tdsEndForeignScan
releases the connection handle (dbclose), then the credential handle
(dbloginfree), then the protocol runtime (dbexit), in that order, each
exactly once. -/
theorem tds_close_release_order (fe : TdsFdwExecutionState) :
    (tdsEndForeignScan fe).filter
        (fun op => op == DbOp.dbclose || op == DbOp.dbloginfree || op == DbOp.dbexit)
      = [DbOp.dbclose, DbOp.dbloginfree, DbOp.dbexit]
    ∧ (tdsEndForeignScan fe).count DbOp.dbclose = 1
    ∧ (tdsEndForeignScan fe).count DbOp.dbloginfree = 1
    ∧ (tdsEndForeignScan fe).count DbOp.dbexit = 1 := by
  rcases hq : fe.query with _ | q <;> simp [tdsEndForeignScan, hq] <;> decide

/-- C8: the startup cost is 0 when the resolved servername is exactly
127.0.0.1 or localhost and 25 otherwise, and for any row count the
estimated total cost equals the row count plus the startup cost. -/
theorem tds_cost_model (os : TdsFdwOptionSet) (rows : Int)
    (tableOpts serverOpts mappingOpts : List (String × String)) :
    (tdsGetStartupCost os
        = if os.servername.getD "" = "127.0.0.1" ∨ os.servername.getD "" = "localhost"
          then 0 else 25)
    ∧ (∀ sc tc, tdsEstimateCosts rows tableOpts serverOpts mappingOpts = .ok (sc, tc) →
        tc = rows + sc ∧ (sc = 0 ∨ sc = 25)) := by
  constructor
  · rfl
  · intro sc tc h
    unfold tdsEstimateCosts at h
    cases hopt : tdsGetOptions tableOpts serverOpts mappingOpts with
    | error e => rw [hopt] at h; cases h
    | ok os' =>
      rw [hopt] at h
      injection h with h
      rw [Prod.mk.injEq] at h
      obtain ⟨hsc, htc⟩ := h
      subst hsc
      subst htc
      refine ⟨rfl, ?_⟩
      unfold tdsGetStartupCost
      split_ifs <;> simp

/-- C8 witness: with the default loopback servername and 3 estimated
rows, the cost pair is (0, 3) and the cost relations hold there. -/
theorem tds_cost_model_w :
    tdsEstimateCosts 3 [("table", "x")] [] [] = .ok (0, 3)
    ∧ ((3 : Int) = 3 + 0 ∧ ((0 : Int) = 0 ∨ (0 : Int) = 25)) :=
  ⟨rfl, (tds_cost_model tdsOptionSetInit 3 [("table", "x")] [] []).2 0 3 rfl⟩

theorem dropSpacesC_subset : ∀ (l : List Char), ∀ c ∈ dropSpacesC l, c ∈ l := by
  intro l
  induction l with
  | nil => intro c hc; simpa [dropSpacesC] using hc
  | cons a rest ih =>
    intro c hc
    unfold dropSpacesC at hc
    by_cases hs : isSpaceC a
    · rw [if_pos hs] at hc
      exact List.mem_cons_of_mem a (ih c hc)
    · rw [if_neg hs] at hc
      exact hc

theorem atoiDigits_zero_of_nondigit (cs : List Char) (h : ∀ c ∈ cs, c.isDigit = false) :
    atoiDigits cs 0 = 0 := by
  cases cs with
  | nil => rfl
  | cons c rest =>
    have hc := h c (List.mem_cons_self c rest)
    simp [atoiDigits, hc]

theorem atoi_nondigit (s : String) (h : ∀ c ∈ s.data, c.isDigit = false) : atoi s = 0 := by
  have hall : ∀ c ∈ dropSpacesC s.data, c.isDigit = false :=
    fun c hc => h c (dropSpacesC_subset s.data c hc)
  unfold atoi
  cases hd : dropSpacesC s.data with
  | nil => rfl
  | cons c cs =>
    rw [hd] at hall
    have hc : c.isDigit = false := hall c (List.mem_cons_self c cs)
    have hcs : ∀ x ∈ cs, x.isDigit = false := fun x hx => hall x (List.mem_cons_of_mem c hx)
    by_cases h1 : c = '-'
    · simp [h1, atoiDigits_zero_of_nondigit cs hcs]
    · by_cases h2 : c = '+'
      · simp [h1, h2, atoiDigits_zero_of_nondigit cs hcs]
      · simp [h1, h2, atoiDigits_zero_of_nondigit (c :: cs) hall]

/-- C10: the host-address string equals servername:port exactly when the
supplied port option parses via atoi to a nonzero integer; a port that
is absent (the stored int stays 0), equal to "0", or non-numeric yields
the bare server name, so port 0 is indistinguishable from no port at
the connection-open call. -/
theorem tds_conn_string_port (name p : String) :
    (atoi p ≠ 0 → buildConnString name (atoi p) = name ++ ":" ++ toString (atoi p))
    ∧ (atoi p = 0 → buildConnString name (atoi p) = name)
    ∧ buildConnString name 0 = name
    ∧ atoi "0" = 0
    ∧ ((∀ c ∈ p.data, c.isDigit = false) → atoi p = 0)
    ∧ (∀ port : Int, buildConnString name port = name ++ ":" ++ toString port → port ≠ 0) := by
  refine ⟨?_, ?_, ?_, ?_, ?_, ?_⟩
  · intro h; simp [buildConnString, h]
  · intro h; simp [buildConnString, h]
  · simp [buildConnString]
  · decide
  · exact atoi_nondigit p
  · intro port hbuild hz
    subst hz
    simp only [buildConnString, ne_eq, not_true_eq_false, if_false, reduceIte] at hbuild
    have hlen := congrArg String.length hbuild
    have e1 : (":" : String).length = 1 := rfl
    have e2 : (toString (0 : Int)).length = 1 := rfl
    rw [String.length_append, String.length_append, e1, e2] at hlen
    omega

/-- C10 witness: port 1433 produces srv:1433; the non-numeric port xyz
parses to 0 and produces the bare name. -/
theorem tds_conn_string_port_w :
    buildConnString "srv" (atoi "1433") = "srv" ++ ":" ++ toString (atoi "1433")
    ∧ buildConnString "srv" (atoi "xyz") = "srv"
    ∧ atoi "xyz" = 0 :=
  ⟨(tds_conn_string_port "srv" "1433").1 (by decide),
   (tds_conn_string_port "srv" "xyz").2.1 (by decide),
   (tds_conn_string_port "srv" "xyz").2.2.2.2.1 (by decide)⟩

theorem tdsConvertToCString_ops (lib : ConvertLib) (srctype : Int) (src : List Int)
    (srclen : Int) :
    ∀ op ∈ (tdsConvertToCString lib srctype src srclen).2,
      op = DbOp.dbwillconvert ∨ op = DbOp.dbconvert := by
  intro op hop
  unfold tdsConvertToCString at hop
  by_cases hw : lib.willconvert srctype (desttypeFor srctype) = true
  · rw [if_pos hw] at hop
    cases hcv : lib.convert srctype src srclen (desttypeFor srctype)
        (destlenFor srctype srclen) <;>
      rw [hcv] at hop <;> simpa using hop
  · rw [if_neg hw] at hop
    simp at hop
    exact Or.inl hop

theorem tdsGetColumnValue_ops (lib : ConvertLib) (c : ColumnData) :
    ∀ op ∈ (tdsGetColumnValue lib c).2, op = DbOp.dbwillconvert ∨ op = DbOp.dbconvert := by
  intro op hop
  unfold tdsGetColumnValue at hop
  by_cases hz : c.srclen = 0
  · simp [hz] at hop
  · rw [if_neg hz] at hop
    cases hsrc : c.src with
    | none => rw [hsrc] at hop; simp at hop
    | some bytes =>
      rw [hsrc] at hop
      exact tdsConvertToCString_ops lib c.srctype bytes c.srclen op hop

theorem tdsFetchRow_ops (r : IterateRemote) (fe : TdsFdwExecutionState) :
    ∀ op ∈ (tdsFetchRow r fe).2,
      op = DbOp.dbnextrow ∨ op = DbOp.dbwillconvert ∨ op = DbOp.dbconvert := by
  intro op hop
  unfold tdsFetchRow at hop
  cases hnr : r.nextrowRet <;> rw [hnr] at hop
  case regRow =>
    rcases List.mem_cons.mp hop with rfl | hop2
    · exact Or.inl rfl
    · rw [List.mem_flatten] at hop2
      obtain ⟨l, hl, hopl⟩ := hop2
      rw [List.mem_map] at hl
      obtain ⟨cell, hcell, rfl⟩ := hl
      unfold tdsRowCells at hcell
      rw [List.mem_map] at hcell
      obtain ⟨col, _, rfl⟩ := hcell
      exact Or.inr (tdsGetColumnValue_ops r.lib col op hopl)
  all_goals (simp at hop; exact Or.inl hop)

theorem tdsFetchRow_first (r : IterateRemote) (fe : TdsFdwExecutionState)
    (out : TdsFdwExecutionState × SlotResult) (h : (tdsFetchRow r fe).1 = .ok out) :
    out.1.first = fe.first := by
  unfold tdsFetchRow at h
  cases hnr : r.nextrowRet <;> rw [hnr] at h <;> (try cases h) <;> rfl

theorem tdsIterateFirstPhase_first_true (r : IterateRemote) (fe : TdsFdwExecutionState)
    (hf : fe.first = true) (hc : r.cmdRet = true) (hs : r.sqlexecRet = true)
    (hr : r.resultsRet = .succeed) :
    tdsIterateFirstPhase r fe
      = (.ok { fe with first := false }, [DbOp.dbcmd, DbOp.dbsqlexec, DbOp.dbresults]) := by
  simp [tdsIterateFirstPhase, hf, hc, hs, hr]

theorem tdsIterateFirstPhase_first_false (r : IterateRemote) (fe : TdsFdwExecutionState)
    (hf : fe.first = false) : tdsIterateFirstPhase r fe = (.ok fe, []) := by
  simp [tdsIterateFirstPhase, hf]

theorem tdsIterateFirstPhase_ok_first (r : IterateRemote) (fe fe' : TdsFdwExecutionState)
    (hf : fe.first = true) (h : (tdsIterateFirstPhase r fe).1 = .ok fe') :
    fe'.first = false := by
  unfold tdsIterateFirstPhase at h
  rw [hf] at h
  cases hc : r.cmdRet <;> rw [hc] at h
  · cases h
  · cases hs : r.sqlexecRet <;> rw [hs] at h
    · cases h
    · cases hr : r.resultsRet <;> rw [hr] at h <;> (try cases h)
      rfl

theorem tdsSetupConnection_ops (r : BeginRemote) (os : TdsFdwOptionSet) :
    ∀ op ∈ (tdsSetupConnection r os).2,
      op = DbOp.dbsetluser ∨ op = DbOp.dbsetlpwd ∨ op = DbOp.dbsetlcharset
        ∨ op = DbOp.dbsetlnatlang ∨ op = DbOp.dbopen ∨ op = DbOp.dbuse := by
  intro op hop
  simp only [tdsSetupConnection] at hop
  rcases hdb : os.database with _ | db <;> rw [hdb] at hop <;>
    by_cases ho : r.openRet = false <;> by_cases hu : r.useRet = false <;>
    by_cases hcs : os.character_set.isSome <;> by_cases hl : os.language.isSome <;>
    simp [ho, hu, hcs, hl] at hop <;> tauto

theorem tdsBeginAfterOptions_ops (br : BeginRemote) (os : TdsFdwOptionSet) :
    ∀ op ∈ (tdsBeginAfterOptions br os).2,
      op ≠ DbOp.dbcmd ∧ op ≠ DbOp.dbsqlexec ∧ op ≠ DbOp.dbresults := by
  intro op hop
  simp only [tdsBeginAfterOptions] at hop
  by_cases hi : br.initRet = false
  · rw [if_pos hi] at hop
    simp at hop
    subst hop
    decide
  · rw [if_neg hi] at hop
    by_cases hl : br.loginRet = false
    · rw [if_pos hl] at hop
      simp at hop
      rcases hop with rfl | rfl | rfl | rfl <;> decide
    · rw [if_neg hl] at hop
      cases hsu : (tdsSetupConnection br os).1 <;> rw [hsu] at hop <;>
        rcases List.mem_append.mp hop with h4 | hsetup <;>
        first
          | (simp at h4; rcases h4 with rfl | rfl | rfl | rfl <;> decide)
          | (rcases tdsSetupConnection_ops br os op hsetup
              with rfl | rfl | rfl | rfl | rfl | rfl <;> decide)

theorem tdsBeginForeignScan_ops (br : BeginRemote) (t s m : List (String × String)) :
    ∀ op ∈ (tdsBeginForeignScan br t s m).2,
      op ≠ DbOp.dbcmd ∧ op ≠ DbOp.dbsqlexec ∧ op ≠ DbOp.dbresults := by
  intro op hop
  simp only [tdsBeginForeignScan] at hop
  cases hopt : tdsGetOptions t s m with
  | error e =>
    rw [hopt] at hop
    simp at hop
  | ok os =>
    rw [hopt] at hop
    have hop2 : op ∈ (tdsBeginAfterOptions br os).2 := hop
    exact tdsBeginAfterOptions_ops br os op hop2

theorem tdsBeginAfterOptions_first (br : BeginRemote) (os : TdsFdwOptionSet)
    (fe0 : TdsFdwExecutionState) (h : (tdsBeginAfterOptions br os).1 = .ok fe0) :
    fe0.first = true := by
  simp only [tdsBeginAfterOptions] at h
  by_cases hi : br.initRet = false
  · rw [if_pos hi] at h; cases h
  · rw [if_neg hi] at h
    by_cases hl : br.loginRet = false
    · rw [if_pos hl] at h; cases h
    · rw [if_neg hl] at h
      cases hsu : (tdsSetupConnection br os).1 <;> rw [hsu] at h
      · cases h
      · cases h; rfl

theorem tdsBeginForeignScan_first (br : BeginRemote) (t s m : List (String × String))
    (fe0 : TdsFdwExecutionState) (h : (tdsBeginForeignScan br t s m).1 = .ok fe0) :
    fe0.first = true := by
  simp only [tdsBeginForeignScan] at h
  cases hopt : tdsGetOptions t s m with
  | error e => rw [hopt] at h; cases h
  | ok os =>
    rw [hopt] at h
    have h2 : (tdsBeginAfterOptions br os).1 = .ok fe0 := h
    exact tdsBeginAfterOptions_first br os fe0 h2

/-- C2: the query is compiled and executed lazily and exactly once per
scan cursor.  Scan-begin issues no dbcmd, dbsqlexec or dbresults and the
state it constructs has the first-call flag set; a next-row call with
the flag set issues dbcmd, dbsqlexec and dbresults exactly once, at the
head of its trace (on success), and clears the flag in the state it
returns; a next-row call with the flag clear issues none of the three —
it only fetches (dbnextrow and the per-column conversion calls). -/
theorem tds_lazy_single_execution (br : BeginRemote) (t s m : List (String × String))
    (r : IterateRemote) (fe : TdsFdwExecutionState) :
    (DbOp.dbcmd ∉ (tdsBeginForeignScan br t s m).2
      ∧ DbOp.dbsqlexec ∉ (tdsBeginForeignScan br t s m).2
      ∧ DbOp.dbresults ∉ (tdsBeginForeignScan br t s m).2)
    ∧ (∀ fe0, (tdsBeginForeignScan br t s m).1 = .ok fe0 → fe0.first = true)
    ∧ (fe.first = true → r.cmdRet = true → r.sqlexecRet = true → r.resultsRet = .succeed →
        ∃ rest, (tdsIterateForeignScan r fe).2
            = DbOp.dbcmd :: DbOp.dbsqlexec :: DbOp.dbresults :: rest
          ∧ DbOp.dbcmd ∉ rest ∧ DbOp.dbsqlexec ∉ rest ∧ DbOp.dbresults ∉ rest)
    ∧ (fe.first = true → ∀ out, (tdsIterateForeignScan r fe).1 = .ok out →
        out.1.first = false)
    ∧ (fe.first = false →
        DbOp.dbcmd ∉ (tdsIterateForeignScan r fe).2
        ∧ DbOp.dbsqlexec ∉ (tdsIterateForeignScan r fe).2
        ∧ DbOp.dbresults ∉ (tdsIterateForeignScan r fe).2) := by
  refine ⟨⟨?_, ?_, ?_⟩, ?_, ?_, ?_, ?_⟩
  · intro hmem; exact (tdsBeginForeignScan_ops br t s m _ hmem).1 rfl
  · intro hmem; exact (tdsBeginForeignScan_ops br t s m _ hmem).2.1 rfl
  · intro hmem; exact (tdsBeginForeignScan_ops br t s m _ hmem).2.2 rfl
  · exact fun fe0 h => tdsBeginForeignScan_first br t s m fe0 h
  · intro hf hc hs hr
    have hfp := tdsIterateFirstPhase_first_true r fe hf hc hs hr
    have htr : (tdsIterateForeignScan r fe).2
        = DbOp.dbcmd :: DbOp.dbsqlexec :: DbOp.dbresults
            :: (tdsFetchRow r { fe with first := false }).2 := by
      unfold tdsIterateForeignScan
      rw [hfp]
      rfl
    refine ⟨(tdsFetchRow r { fe with first := false }).2, htr, ?_, ?_, ?_⟩ <;>
      intro hmem <;>
      exact absurd (tdsFetchRow_ops r { fe with first := false } _ hmem) (by decide)
  · intro hf out hout
    simp only [tdsIterateForeignScan] at hout
    cases hfp : (tdsIterateFirstPhase r fe).1 with
    | error e => rw [hfp] at hout; cases hout
    | ok fe' =>
      rw [hfp] at hout
      have h1 := tdsIterateFirstPhase_ok_first r fe fe' hf hfp
      have h2 := tdsFetchRow_first r fe' out hout
      rw [h2, h1]
  · intro hf
    have hfp := tdsIterateFirstPhase_first_false r fe hf
    have htr : (tdsIterateForeignScan r fe).2 = (tdsFetchRow r fe).2 := by
      unfold tdsIterateForeignScan
      rw [hfp]
      rfl
    refine ⟨?_, ?_, ?_⟩ <;> intro hmem <;> rw [htr] at hmem <;>
      exact absurd (tdsFetchRow_ops r fe _ hmem) (by decide)

/-- C2 witness: at the concrete remote rIterEx and fresh state
feFirstEx, the first iterate call's trace starts with dbcmd, dbsqlexec,
dbresults, and the remaining trace contains none of the three. -/
theorem tds_lazy_single_execution_w :
    ∃ rest, (tdsIterateForeignScan rIterEx feFirstEx).2
        = DbOp.dbcmd :: DbOp.dbsqlexec :: DbOp.dbresults :: rest
      ∧ DbOp.dbcmd ∉ rest ∧ DbOp.dbsqlexec ∉ rest ∧ DbOp.dbresults ∉ rest :=
  (tds_lazy_single_execution brOkEx [("table", "t")] [] [] rIterEx feFirstEx).2.2.1
    rfl rfl rfl rfl

/-- C4 evidence: on success tdsGetForeignRelSize returns the DBCOUNT
value (3 here) after fetching at most one row and its trace ends by
releasing the connection, the login record and the runtime; with no
result set it returns 0 (and still cleans up); but when a step inside
tdsGetRowCount fails (dbcmd here), the ereport(ERROR) unwinds out of the
function before the cleanup labels, and none of dbclose, dbloginfree or
dbexit is executed: the transient session is not closed on the failure
path. -/
theorem tds_relsize_close_behavior :
    (tdsGetForeignRelSize brOkEx rcOkEx [("table", "t")] [] []).1 = .ok 3
    ∧ (tdsGetForeignRelSize brOkEx rcOkEx [("table", "t")] [] []).2.reverse.take 3
        = [DbOp.dbexit, DbOp.dbloginfree, DbOp.dbclose]
    ∧ (tdsGetForeignRelSize brOkEx rcNoResEx [("table", "t")] [] []).1 = .ok 0
    ∧ DbOp.dbclose ∈ (tdsGetForeignRelSize brOkEx rcNoResEx [("table", "t")] [] []).2
    ∧ (tdsGetForeignRelSize brOkEx rcCmdFailEx [("table", "t")] [] []).1
        = .error (.executionError "Failed to set current query")
    ∧ DbOp.dbclose ∉ (tdsGetForeignRelSize brOkEx rcCmdFailEx [("table", "t")] [] []).2
    ∧ DbOp.dbloginfree ∉ (tdsGetForeignRelSize brOkEx rcCmdFailEx [("table", "t")] [] []).2
    ∧ DbOp.dbexit ∉ (tdsGetForeignRelSize brOkEx rcCmdFailEx [("table", "t")] [] []).2 :=
  ⟨rfl, by decide, rfl, by decide, rfl, by decide, by decide, by decide⟩
